import Mathlib

/-
Verification of the CAMP class-metadata node (src/class.cpp).

The C++ `camp::Class` is embedded shallowly:

* A `Class` record carries the member tables of one class node, with the
  source's field names (`m_id`, `m_name`, `m_bases`, `m_functions`,
  `m_propertiesById`, `m_propertiesByIndex`, `m_constructors`).
* The base-class graph links classes through pointers in C++.  Here a
  registry is a `List Class`, a class reference is its index in that list,
  and `BaseInfo.base` stores such an index.  Index equality models C++
  pointer identity (`&base == this`); the `m_id` field models the hashed
  `StringId` used by `operator==`.
* Function and property descriptors are opaque in this core; the `Nat`
  stored in `functionPtr` / `propertyPtr` is the identity of the descriptor
  object the C++ smart pointer refers to.
* `CAMP_ERROR(e)` throws; fallible operations return `Except CampError`.
* `void*` pointers are 64-bit machine addresses: a `Nat` below `2 ^ 64`,
  with `0` as the null pointer, and pointer arithmetic wraps modulo
  `2 ^ 64` as on the underlying machine.
* `Class::baseOffset` recurses through the base graph; the registration
  subsystem guarantees the graph is acyclic, so the recursion depth is
  bounded by the number of registered classes.  The embedding makes this
  explicit with a fuel argument set to `reg.length + 1`, which exceeds the
  longest possible acyclic path.
-/

namespace camp

/-- Errors raised via `CAMP_ERROR` in class.cpp: positional index out of
range, id-based lookup miss (carrying the id and the owning class's name),
and `applyOffset` between unrelated classes (carrying both names). -/
inductive CampError where
  | OutOfRange (index : Nat) (size : Nat)
  | FunctionNotFound (id : Nat) (className : String)
  | PropertyNotFound (id : Nat) (className : String)
  | ClassUnrelated (className : String) (targetName : String)
deriving DecidableEq

deriving instance DecidableEq for Except

/-- One record of `Class::m_bases`: a reference to a direct base class (an
index into the registry list) and the byte offset from this class to that
base sub-object. -/
structure BaseInfo where
  base : Nat
  offset : Int
deriving DecidableEq

/-- One record of the id-sorted `Class::m_functions` table: the function's
`StringId` and the identity of the `Function` descriptor the entry's
`functionPtr` points to. -/
structure FunctionEntry where
  id : Nat
  functionPtr : Nat
deriving DecidableEq

/-- One record of either property table: the property's `StringId` and the
identity of the `Property` descriptor the entry's `propertyPtr` points to. -/
structure PropertyEntry where
  id : Nat
  propertyPtr : Nat
deriving DecidableEq

/-- An opaque argument bundle (`camp::Args`). -/
def Args : Type := List Nat

/-- An instance handle (`camp::UserObject`); `nothing` is the distinguished
"no instance" sentinel `UserObject::nothing`. -/
inductive UserObject where
  | nothing
  | object (handle : Nat)
deriving DecidableEq

/-- A constructor descriptor: the capability to test an argument match and
the capability to create an instance (external collaborators of the node).
`matchesFn` stands for the source's `matches` member, which is a reserved
word in Lean. -/
structure Constructor where
  matchesFn : Args → Bool
  create : Args → UserObject

/-- The class-metadata node `camp::Class`. -/
structure Class where
  m_id : Nat
  m_name : String
  m_bases : List BaseInfo := []
  m_functions : List FunctionEntry := []
  m_propertiesById : List PropertyEntry := []
  m_propertiesByIndex : List PropertyEntry := []
  m_constructors : List Constructor := []

/-- `Class::baseCount`. -/
def Class.baseCount (c : Class) : Nat :=
  c.m_bases.length

/-- `Class::functionCount`. -/
def Class.functionCount (c : Class) : Nat :=
  c.m_functions.length

/-- `Class::propertyCount`: the size of the id-sorted view. -/
def Class.propertyCount (c : Class) : Nat :=
  c.m_propertiesById.length

/-- `Class::constructorCount`. -/
def Class.constructorCount (c : Class) : Nat :=
  c.m_constructors.length

/-- `std::lower_bound` over the function table with `OrderByFunctionId`:
on a range partitioned by `entry.id < id` (which a sorted table is), it
returns the first entry whose id is not less than the searched id, or
`none` (the end iterator) when every entry's id is less. -/
def lowerBoundFunction (xs : List FunctionEntry) (id : Nat) : Option FunctionEntry :=
  List.find? (fun e => decide (id ≤ e.id)) xs

/-- `std::lower_bound` over the id-sorted property view with
`OrderByPropertyId`, as in `lowerBoundFunction`. -/
def lowerBoundProperty (xs : List PropertyEntry) (id : Nat) : Option PropertyEntry :=
  List.find? (fun e => decide (id ≤ e.id)) xs

/-- `Class::hasFunction`: lower-bound search, then
`iterator != end && iterator->id == id`. -/
def Class.hasFunction (c : Class) (id : Nat) : Bool :=
  match lowerBoundFunction c.m_functions id with
  | some e => e.id == id
  | none => false

/-- `Class::getFunctionByIndex`: bound check against the function table's
size, then a read of the same table. -/
def Class.getFunctionByIndex (c : Class) (index : Nat) : Except CampError Nat :=
  if h : c.m_functions.length ≤ index then
    Except.error (CampError.OutOfRange index c.m_functions.length)
  else
    Except.ok (c.m_functions.get ⟨index, Nat.lt_of_not_le h⟩).functionPtr

/-- `Class::getFunctionById`: lower-bound search; on a hit return the
descriptor, otherwise `CAMP_ERROR(FunctionNotFound(id, m_name))`. -/
def Class.getFunctionById (c : Class) (id : Nat) : Except CampError Nat :=
  match lowerBoundFunction c.m_functions id with
  | some e =>
    if e.id == id then Except.ok e.functionPtr
    else Except.error (CampError.FunctionNotFound id c.m_name)
  | none => Except.error (CampError.FunctionNotFound id c.m_name)

/-- `Class::tryGetFunctionById`: as `getFunctionById` but yielding `none`
instead of failing. -/
def Class.tryGetFunctionById (c : Class) (id : Nat) : Option Nat :=
  match lowerBoundFunction c.m_functions id with
  | some e => if e.id == id then some e.functionPtr else none
  | none => none

/-- `Class::hasProperty`: lower-bound search on the id-sorted view. -/
def Class.hasProperty (c : Class) (id : Nat) : Bool :=
  match lowerBoundProperty c.m_propertiesById id with
  | some e => e.id == id
  | none => false

/-- `Class::getPropertyByIndex`: the bound check is against the id-sorted
view `m_propertiesById`, but the read is from the index-ordered view
`m_propertiesByIndex`.  The C++ read `m_propertiesByIndex[index]` is
unchecked; the embedding returns the `Option` of the read, `none` standing
for the out-of-bounds access the bound check failed to prevent. -/
def Class.getPropertyByIndex (c : Class) (index : Nat) : Except CampError (Option Nat) :=
  if c.m_propertiesById.length ≤ index then
    Except.error (CampError.OutOfRange index c.m_propertiesById.length)
  else
    Except.ok ((c.m_propertiesByIndex.get? index).map PropertyEntry.propertyPtr)

/-- `Class::base`: bound check, then the direct base reference at that
index. -/
def Class.base (c : Class) (index : Nat) : Except CampError Nat :=
  if h : c.m_bases.length ≤ index then
    Except.error (CampError.OutOfRange index c.m_bases.length)
  else
    Except.ok (c.m_bases.get ⟨index, Nat.lt_of_not_le h⟩).base

/-- The loop body of `Class::construct`: scan the constructor list in
registration order, delegate to the first whose `matches` accepts the
arguments. -/
def constructLoop : List Constructor → Args → UserObject
  | [], _ => UserObject.nothing
  | k :: rest, args => if k.matchesFn args then k.create args else constructLoop rest args

/-- `Class::construct`: try the registered constructors in order; return
the first match's created instance, or `UserObject::nothing` when no
constructor matches. -/
def Class.construct (c : Class) (args : Args) : UserObject :=
  constructLoop c.m_constructors args

/-- `Class::operator==`: equality of class nodes is decided by `m_id`
alone; the name plays no part. -/
def Class.eqOp (a b : Class) : Bool :=
  a.m_id == b.m_id

/-- The loop of `Class::baseOffset` over `m_bases`, in declaration order:
ask each direct base for its offset to the target (`eval b.base` stands
for the recursive call `baseInfo.base->baseOffset(base)`); on the first
answer that is not the sentinel `-1`, return it plus the offset to that
base. -/
def searchBases (eval : Nat → Int) : List BaseInfo → Int
  | [] => -1
  | b :: rest =>
    let offset := eval b.base
    if offset = -1 then searchBases eval rest
    else offset + b.offset

/-- `Class::baseOffset`, with explicit fuel bounding the recursion depth
(the registration subsystem keeps the base graph acyclic, so any fuel
larger than the longest path gives the C++ behaviour).  The self check
`&base == this` is pointer identity: here, equality of registry indices. -/
def baseOffsetAux (reg : List Class) : Nat → Nat → Nat → Int
  | 0, _, _ => -1
  | Nat.succ fuelm, self, target =>
    if self = target then 0
    else
      match reg.get? self with
      | none => -1
      | some node => searchBases (fun bb => baseOffsetAux reg fuelm bb target) node.m_bases

/-- `Class::baseOffset` on a registry: fuel `reg.length + 1` exceeds the
longest acyclic path through the graph. -/
def Class.baseOffset (reg : List Class) (self target : Nat) : Int :=
  baseOffsetAux reg (reg.length + 1) self target

/-- `Class::name()` of the class at a registry index (the empty string for
an index outside the registry, which cannot arise for the C++ references). -/
def className (reg : List Class) (i : Nat) : String :=
  match reg.get? i with
  | some node => node.m_name
  | none => ""

/-- Pointer arithmetic `static_cast<char*>(pointer) + offset` on 64-bit
machine addresses: wraps modulo `2 ^ 64`. -/
def addOffset (p : Nat) (o : Int) : Nat :=
  (((p : Int) + o) % (2 ^ 64 : Int)).toNat

/-- `Class::applyOffset`: null pointers pass through; otherwise add the
offset when the target is an ancestor of this class, subtract it when the
target is a descendant, and fail with `ClassUnrelated` otherwise. -/
def Class.applyOffset (reg : List Class) (self : Nat) (pointer : Nat) (target : Nat) :
    Except CampError Nat :=
  if pointer = 0 then Except.ok pointer
  else
    let offset := Class.baseOffset reg self target
    if offset ≠ -1 then Except.ok (addOffset pointer offset)
    else
      let offset2 := Class.baseOffset reg target self
      if offset2 ≠ -1 then Except.ok (addOffset pointer (-offset2))
      else Except.error (CampError.ClassUnrelated (className reg self) (className reg target))

/-- Modelled from the spec: the four-step decision order of `applyOffset`
in section 4.2 — (1) null pointers pass through unchanged; (2) try
`this.baseOffset(target)` and, if found, add the offset; (3) else try
`target.baseOffset(this)` and, if found, subtract that offset; (4) else
fail with `ClassUnrelated(this.name, target.name)`.  "Found" means the
sentinel `-1` was not returned. -/
def applyOffsetSpec (reg : List Class) (self : Nat) (pointer : Nat) (target : Nat) :
    Except CampError Nat :=
  if pointer = 0 then Except.ok pointer
  else if Class.baseOffset reg self target = -1 then
    if Class.baseOffset reg target self = -1 then
      Except.error (CampError.ClassUnrelated (className reg self) (className reg target))
    else Except.ok (addOffset pointer (-(Class.baseOffset reg target self)))
  else Except.ok (addOffset pointer (Class.baseOffset reg self target))

/-- `target` is reachable from `self` as an ancestor through the
registered base graph (including `self` itself, the `&base == this` hit). -/
inductive IsAncestor (reg : List Class) : Nat → Nat → Prop where
  | refl (n : Nat) : IsAncestor reg n n
  | step (self target : Nat) (node : Class) (b : BaseInfo) :
      reg.get? self = some node → b ∈ node.m_bases →
      IsAncestor reg b.base target → IsAncestor reg self target

/-- Diamond fixture: `A` at index 0, `B1` at 1 (base `A` at offset `o1`),
`B2` at 2 (base `A` at offset `o2`), `D` at 3 with direct bases `B1` then
`B2`, in that declaration order, at offsets `oB1` and `oB2`. -/
def diamondReg (o1 o2 oB1 oB2 : Int) : List Class :=
  [ { m_id := 0, m_name := "A" },
    { m_id := 1, m_name := "B1", m_bases := [⟨0, o1⟩] },
    { m_id := 2, m_name := "B2", m_bases := [⟨0, o2⟩] },
    { m_id := 3, m_name := "D", m_bases := [⟨1, oB1⟩, ⟨2, oB2⟩] } ]

/-- Two-class fixture: `D` (index 1) derives directly from `A` (index 0)
at byte offset 5. -/
def pairReg : List Class :=
  [ { m_id := 0, m_name := "A" },
    { m_id := 1, m_name := "D", m_bases := [⟨0, 5⟩] } ]

/-- Two distinct class nodes carrying the same id, with no base links. -/
def twinA : Class := { m_id := 42, m_name := "TwinA" }

/-- Second node with the same id as `twinA` but a different name. -/
def twinB : Class := { m_id := 42, m_name := "TwinB" }

/-- Registry holding both twin nodes (at indices 0 and 1). -/
def twinReg : List Class := [twinA, twinB]

/-- If the loop over a base list found a non-sentinel offset, some base in
the list answered with a non-sentinel offset. -/
theorem searchBases_found (eval : Nat → Int) :
    ∀ bs : List BaseInfo, searchBases eval bs ≠ -1 →
      ∃ b, b ∈ bs ∧ eval b.base ≠ -1 := by
  intro bs
  induction bs with
  | nil =>
    intro h
    rw [searchBases] at h
    exact absurd rfl h
  | cons b rest ih =>
    intro h
    by_cases hb : eval b.base = -1
    · rw [searchBases] at h
      simp only [if_pos hb] at h
      obtain ⟨b2, hmem, hne⟩ := ih h
      exact ⟨b2, List.mem_cons_of_mem b hmem, hne⟩
    · exact ⟨b, List.mem_cons_self b rest, hb⟩

/-- A non-sentinel `baseOffset` answer means the target really is reachable
as an ancestor through the base graph. -/
theorem baseOffsetAux_found (reg : List Class) :
    ∀ (fuel self target : Nat), baseOffsetAux reg fuel self target ≠ -1 →
      IsAncestor reg self target := by
  intro fuel
  induction fuel with
  | zero =>
    intro s t h
    rw [baseOffsetAux] at h
    exact absurd rfl h
  | succ f ih =>
    intro s t h
    by_cases hst : s = t
    · subst hst
      exact IsAncestor.refl s
    · rw [baseOffsetAux, if_neg hst] at h
      cases hg : reg.get? s with
      | none =>
        rw [hg] at h
        exact absurd rfl h
      | some node =>
        rw [hg] at h
        obtain ⟨b, hmem, hne⟩ :=
          searchBases_found (fun bb => baseOffsetAux reg f bb t) node.m_bases h
        exact IsAncestor.step s t node b hg hmem (ih b.base t hne)

/-- Contrapositive used by the claims: a class that is not an ancestor gets
the sentinel `-1`. -/
theorem not_ancestor_baseOffset (reg : List Class) (s t : Nat)
    (h : ¬ IsAncestor reg s t) : Class.baseOffset reg s t = -1 := by
  by_contra hne
  exact h (baseOffsetAux_found reg (reg.length + 1) s t hne)

/-- Claim C1: in the diamond fixture, `D.baseOffset(A)` returns the offset
accumulated along the path through the first-declared base `B1` (the
depth-first, declaration-ordered traversal stops at the first successful
path), and for every class `T` not reachable as an ancestor through the
base graph, `baseOffset` returns the sentinel `-1`. -/
theorem claim_C1_diamond_first_base_wins (o1 o2 oB1 oB2 : Int) (h1 : o1 ≠ -1)
    (h12 : o1 ≠ o2) (T : Nat)
    (hT : ¬ IsAncestor (diamondReg o1 o2 oB1 oB2) 3 T) :
    Class.baseOffset (diamondReg o1 o2 oB1 oB2) 3 0 = o1 + oB1 ∧
    Class.baseOffset (diamondReg o1 o2 oB1 oB2) 3 T = -1 := by
  refine ⟨?_, not_ancestor_baseOffset _ _ _ hT⟩
  have h1z : ((0 : Int) + o1) ≠ -1 := by rwa [zero_add]
  show (if (0 + o1 : Int) = -1
        then searchBases (fun bb => baseOffsetAux (diamondReg o1 o2 oB1 oB2) 4 bb 0) [⟨2, oB2⟩]
        else (0 + o1) + oB1) = o1 + oB1
  rw [if_neg h1z, zero_add]

/-- Index 4 names no class of the concrete diamond registry, so the root
`A` cannot reach it. -/
theorem diamond_no_anc_0 : ¬ IsAncestor (diamondReg 1 2 4 8) 0 4 := by
  intro h
  cases h with
  | step s t node b hget hmem hanc =>
    have hnode : node = ({ m_id := 0, m_name := "A" } : Class) :=
      Option.some.inj
        (hget.symm.trans (rfl : (diamondReg 1 2 4 8).get? 0 = some { m_id := 0, m_name := "A" }))
    rw [hnode] at hmem
    cases hmem

/-- `B1` cannot reach index 4 either. -/
theorem diamond_no_anc_1 : ¬ IsAncestor (diamondReg 1 2 4 8) 1 4 := by
  intro h
  cases h with
  | step s t node b hget hmem hanc =>
    have hnode : node = ({ m_id := 1, m_name := "B1", m_bases := [⟨0, 1⟩] } : Class) :=
      Option.some.inj (hget.symm.trans
        (rfl : (diamondReg 1 2 4 8).get? 1 = some { m_id := 1, m_name := "B1", m_bases := [⟨0, 1⟩] }))
    rw [hnode] at hmem
    cases hmem with
    | head => exact diamond_no_anc_0 hanc
    | tail _ hm => cases hm

/-- `B2` cannot reach index 4 either. -/
theorem diamond_no_anc_2 : ¬ IsAncestor (diamondReg 1 2 4 8) 2 4 := by
  intro h
  cases h with
  | step s t node b hget hmem hanc =>
    have hnode : node = ({ m_id := 2, m_name := "B2", m_bases := [⟨0, 2⟩] } : Class) :=
      Option.some.inj (hget.symm.trans
        (rfl : (diamondReg 1 2 4 8).get? 2 = some { m_id := 2, m_name := "B2", m_bases := [⟨0, 2⟩] }))
    rw [hnode] at hmem
    cases hmem with
    | head => exact diamond_no_anc_0 hanc
    | tail _ hm => cases hm

/-- `D` cannot reach index 4: it is not an ancestor of `D` in the diamond. -/
theorem diamond_no_anc_3 : ¬ IsAncestor (diamondReg 1 2 4 8) 3 4 := by
  intro h
  cases h with
  | step s t node b hget hmem hanc =>
    have hnode : node = ({ m_id := 3, m_name := "D", m_bases := [⟨1, 4⟩, ⟨2, 8⟩] } : Class) :=
      Option.some.inj (hget.symm.trans
        (rfl : (diamondReg 1 2 4 8).get? 3 =
          some { m_id := 3, m_name := "D", m_bases := [⟨1, 4⟩, ⟨2, 8⟩] }))
    rw [hnode] at hmem
    cases hmem with
    | head => exact diamond_no_anc_1 hanc
    | tail _ hm =>
      cases hm with
      | head => exact diamond_no_anc_2 hanc
      | tail _ hm2 => cases hm2

/-- Witness for claim C1 on the diamond with offsets 1, 2 (to `A`) and
4, 8 (to `B1`, `B2`), and the unreachable index 4. -/
theorem claim_C1_witness :
    ((1 : Int) ≠ -1 ∧ (1 : Int) ≠ 2 ∧ ¬ IsAncestor (diamondReg 1 2 4 8) 3 4) ∧
      (Class.baseOffset (diamondReg 1 2 4 8) 3 0 = 1 + 4 ∧
        Class.baseOffset (diamondReg 1 2 4 8) 3 4 = -1) :=
  ⟨⟨by decide, by decide, diamond_no_anc_3⟩,
    claim_C1_diamond_first_base_wins 1 2 4 8 (by decide) (by decide) 4 diamond_no_anc_3⟩

/-- Claim C4: for every registry and every class in it, `baseOffset`
applied to the class itself returns 0. -/
theorem claim_C4_baseOffset_self (reg : List Class) (self : Nat) :
    Class.baseOffset reg self self = 0 := by
  rw [Class.baseOffset, baseOffsetAux]
  simp

/-- Claim C2: `applyOffset` follows exactly the spec's decision order:
null pointers are returned unchanged; otherwise if `this.baseOffset(target)`
finds the target as an ancestor the offset is added; otherwise if
`target.baseOffset(this)` finds this class as an ancestor of the target
that offset is subtracted; otherwise the call fails with `ClassUnrelated`
carrying this class's name and the target class's name. -/
theorem claim_C2_applyOffset_decision_order (reg : List Class)
    (self pointer target : Nat) :
    Class.applyOffset reg self pointer target = applyOffsetSpec reg self pointer target := by
  rw [Class.applyOffset, applyOffsetSpec]
  by_cases hp : pointer = 0
  · simp [hp]
  · simp only [if_neg hp]
    by_cases h1 : Class.baseOffset reg self target = -1
    · simp only [h1, if_pos rfl, ne_eq, not_true_eq_false, if_false]
      by_cases h2 : Class.baseOffset reg target self = -1
      · simp [h2]
      · simp [h2]
    · simp [h1]

/-- Claim C10: `baseOffset` detects "target is this class itself" by node
identity, not id equality: two distinct nodes with equal ids (which compare
equal under `operator==`) and no base link between them get the sentinel
`-1`, not 0. -/
theorem claim_C10_identity_not_id (reg : List Class) (i j : Nat)
    (ni nj : Class) (hij : i ≠ j) (hi : reg.get? i = some ni)
    (hj : reg.get? j = some nj) (hid : ni.m_id = nj.m_id)
    (hb : ni.m_bases = []) :
    Class.eqOp ni nj = true ∧ Class.baseOffset reg i j = -1 := by
  constructor
  · simp [Class.eqOp, hid]
  · rw [Class.baseOffset, baseOffsetAux, if_neg hij, hi]
    simp [hb, searchBases]

/-- Adding an offset to a valid 64-bit address and then subtracting it
again recovers the address. -/
theorem addOffset_cancel (p : Nat) (o : Int) (hp : p < 2 ^ 64) :
    addOffset (addOffset p o) (-o) = p := by
  unfold addOffset
  have hM : ((2 : Int) ^ 64) = 18446744073709551616 := by norm_num
  have hp2 : p < 18446744073709551616 := by
    calc p < 2 ^ 64 := hp
    _ = 18446744073709551616 := by norm_num
  rw [hM]
  omega

/-- Counterexample to claim C3 as stated: in the two-class fixture `D`
(index 1) derives from `A` (index 0) at offset 5, so the pair is related,
and `p = 2 ^ 64 - 5` is a non-null pointer; but adjusting `p` toward `A`
wraps to the null address, the way back leaves null unchanged, and the
round trip returns 0 instead of `p`. -/
theorem claim_C3_counterexample :
    Class.baseOffset pairReg 1 0 = 5 ∧
    (2 ^ 64 - 5 : Nat) ≠ 0 ∧
    (Class.applyOffset pairReg 1 (2 ^ 64 - 5) 0).bind
      (fun q => Class.applyOffset pairReg 0 q 1) = Except.ok 0 ∧
    (0 : Nat) ≠ 2 ^ 64 - 5 := by
  decide

/-- Claim C3 as amended: for classes related as ancestor/descendant
(`baseOffset` finds a non-sentinel offset from `self` to `target` and the
sentinel in the reverse direction) and every non-null 64-bit pointer `p`
whose adjusted intermediate pointer is also non-null, applying
`applyOffset` toward the target and then back toward the original class
recovers `p` — in both directions; and `applyOffset(null, anything)`
returns null. -/
theorem claim_C3_roundTrip (reg : List Class) (self target : Nat) (o : Int) (p : Nat)
    (hst : Class.baseOffset reg self target = o) (ho : o ≠ -1)
    (hts : Class.baseOffset reg target self = -1)
    (hp : p ≠ 0) (hp64 : p < 2 ^ 64)
    (hfwd : addOffset p o ≠ 0) (hbwd : addOffset p (-o) ≠ 0) :
    (Class.applyOffset reg self p target).bind
        (fun q => Class.applyOffset reg target q self) = Except.ok p ∧
    (Class.applyOffset reg target p self).bind
        (fun q => Class.applyOffset reg self q target) = Except.ok p ∧
    Class.applyOffset reg self 0 target = Except.ok 0 := by
  have hsentinel : ¬ ((-1 : Int) ≠ -1) := by decide
  have h1 : Class.applyOffset reg self p target = Except.ok (addOffset p o) := by
    rw [Class.applyOffset, if_neg hp]
    simp only [hst]
    rw [if_pos ho]
  have h2 : Class.applyOffset reg target (addOffset p o) self = Except.ok p := by
    rw [Class.applyOffset, if_neg hfwd]
    simp only [hts, hst]
    rw [if_neg hsentinel, if_pos ho, addOffset_cancel p o hp64]
  have h3 : Class.applyOffset reg target p self = Except.ok (addOffset p (-o)) := by
    rw [Class.applyOffset, if_neg hp]
    simp only [hts, hst]
    rw [if_neg hsentinel, if_pos ho]
  have hcancel : addOffset (addOffset p (-o)) o = p := by
    have h := addOffset_cancel p (-o) hp64
    rwa [neg_neg] at h
  have h4 : Class.applyOffset reg self (addOffset p (-o)) target = Except.ok p := by
    rw [Class.applyOffset, if_neg hbwd]
    simp only [hst]
    rw [if_pos ho, hcancel]
  refine ⟨?_, ?_, ?_⟩
  · rw [h1]
    exact h2
  · rw [h3]
    exact h4
  · rw [Class.applyOffset, if_pos rfl]

/-- Witness for the amended claim C3 on the two-class fixture with
pointer 100. -/
theorem claim_C3_witness :
    (Class.baseOffset pairReg 1 0 = 5 ∧ (5 : Int) ≠ -1 ∧
        Class.baseOffset pairReg 0 1 = -1 ∧ (100 : Nat) ≠ 0 ∧
        (100 : Nat) < 2 ^ 64 ∧ addOffset 100 5 ≠ 0 ∧ addOffset 100 (-5) ≠ 0) ∧
      ((Class.applyOffset pairReg 1 100 0).bind
          (fun q => Class.applyOffset pairReg 0 q 1) = Except.ok 100 ∧
        (Class.applyOffset pairReg 0 100 1).bind
          (fun q => Class.applyOffset pairReg 1 q 0) = Except.ok 100 ∧
        Class.applyOffset pairReg 1 0 0 = Except.ok 0) :=
  ⟨⟨by decide, by decide, by decide, by decide, by decide, by decide, by decide⟩,
    claim_C3_roundTrip pairReg 1 0 5 100 (by decide) (by decide) (by decide)
      (by decide) (by decide) (by decide) (by decide)⟩

/-- In a strictly id-sorted function table holding id `k` at position `i`,
the lower-bound search lands exactly on that entry. -/
theorem lowerBoundFunction_at (xs : List FunctionEntry) (k : Nat) :
    ∀ (i : Nat) (hi : i < xs.length),
      List.Pairwise (fun a b => a.id < b.id) xs →
      (xs.get ⟨i, hi⟩).id = k →
      lowerBoundFunction xs k = some (xs.get ⟨i, hi⟩) := by
  induction xs with
  | nil =>
    intro i hi
    exact absurd hi (by simp)
  | cons a t ih =>
    intro i hi hp hk
    cases i with
    | zero =>
      have hk0 : a.id = k := hk
      rw [lowerBoundFunction]
      rw [List.find?_cons_of_pos _ (by simp [hk0])]
      rfl
    | succ j =>
      have hj : j < t.length := Nat.lt_of_succ_lt_succ hi
      have hget : (a :: t).get ⟨j + 1, hi⟩ = t.get ⟨j, hj⟩ := rfl
      rw [hget] at hk ⊢
      have hmem : t.get ⟨j, hj⟩ ∈ t := t.get_mem j hj
      have hlt : a.id < k := hk ▸ ((List.pairwise_cons.mp hp).1 _ hmem)
      rw [lowerBoundFunction]
      rw [List.find?_cons_of_neg _ (by simp; omega)]
      exact ih j hj (List.pairwise_cons.mp hp).2 hk

/-- Fixture for the function-table claims: two functions, ids 3 and 7,
with descriptors 30 and 70, in id-sorted order. -/
def funcClass : Class :=
  { m_id := 100, m_name := "F", m_functions := [⟨3, 30⟩, ⟨7, 70⟩] }

/-- Claim C5: for every class whose function table is sorted by id and
every id `k` present in the table at position `i`: `hasFunction k` is
true, `getFunctionById k` and `tryGetFunctionById k` return the same
descriptor, and both equal `getFunctionByIndex i`. -/
theorem claim_C5_present_function_id (c : Class) (k i : Nat)
    (hs : List.Pairwise (fun a b => a.id < b.id) c.m_functions)
    (hi : i < c.m_functions.length)
    (hk : (c.m_functions.get ⟨i, hi⟩).id = k) :
    c.hasFunction k = true ∧
    c.getFunctionById k = Except.ok (c.m_functions.get ⟨i, hi⟩).functionPtr ∧
    c.tryGetFunctionById k = some (c.m_functions.get ⟨i, hi⟩).functionPtr ∧
    c.getFunctionByIndex i = Except.ok (c.m_functions.get ⟨i, hi⟩).functionPtr := by
  have hfind := lowerBoundFunction_at c.m_functions k i hi hs hk
  have hk2 : ((c.m_functions.get ⟨i, hi⟩).id == k) = true := by
    rw [hk]
    exact beq_self_eq_true k
  refine ⟨?_, ?_, ?_, ?_⟩
  · rw [Class.hasFunction, hfind]
    exact hk2
  · rw [Class.getFunctionById, hfind]
    show (if ((c.m_functions.get ⟨i, hi⟩).id == k) = true
          then Except.ok (c.m_functions.get ⟨i, hi⟩).functionPtr
          else Except.error (CampError.FunctionNotFound k c.m_name)) =
      Except.ok (c.m_functions.get ⟨i, hi⟩).functionPtr
    rw [if_pos hk2]
  · rw [Class.tryGetFunctionById, hfind]
    show (if ((c.m_functions.get ⟨i, hi⟩).id == k) = true
          then some (c.m_functions.get ⟨i, hi⟩).functionPtr
          else none) =
      some (c.m_functions.get ⟨i, hi⟩).functionPtr
    rw [if_pos hk2]
  · rw [Class.getFunctionByIndex, dif_neg (Nat.not_le.mpr hi)]

/-- Witness for claim C5 on the two-function fixture, id 7 at index 1. -/
theorem claim_C5_witness :
    (List.Pairwise (fun a b => a.id < b.id) funcClass.m_functions ∧
        (1 : Nat) < funcClass.m_functions.length) ∧
      (funcClass.hasFunction 7 = true ∧
        funcClass.getFunctionById 7 = Except.ok 70 ∧
        funcClass.tryGetFunctionById 7 = some 70 ∧
        funcClass.getFunctionByIndex 1 = Except.ok 70) :=
  ⟨⟨by decide, by decide⟩,
    claim_C5_present_function_id funcClass 7 1 (by decide) (by decide) (by decide)⟩

/-- Claim C6: for every class whose function table is sorted by id and
every id `k` absent from the table: `hasFunction k` is false,
`getFunctionById k` fails with `FunctionNotFound` carrying the id and the
owning class's name, and `tryGetFunctionById k` yields `none`. -/
theorem claim_C6_absent_function_id (c : Class) (k : Nat)
    (hs : List.Pairwise (fun a b => a.id < b.id) c.m_functions)
    (habs : ∀ e ∈ c.m_functions, e.id ≠ k) :
    c.hasFunction k = false ∧
    c.getFunctionById k = Except.error (CampError.FunctionNotFound k c.m_name) ∧
    c.tryGetFunctionById k = none := by
  cases hfind : lowerBoundFunction c.m_functions k with
  | none =>
    exact ⟨by rw [Class.hasFunction, hfind], by rw [Class.getFunctionById, hfind],
      by rw [Class.tryGetFunctionById, hfind]⟩
  | some e =>
    have hmem : e ∈ c.m_functions := by
      rw [lowerBoundFunction] at hfind
      exact List.mem_of_find?_eq_some hfind
    have hbeq : (e.id == k) = false := by
      simp [habs e hmem]
    refine ⟨?_, ?_, ?_⟩
    · rw [Class.hasFunction, hfind]
      exact hbeq
    · rw [Class.getFunctionById, hfind]
      show (if (e.id == k) = true then Except.ok e.functionPtr
            else Except.error (CampError.FunctionNotFound k c.m_name)) =
        Except.error (CampError.FunctionNotFound k c.m_name)
      rw [hbeq]
      rfl
    · rw [Class.tryGetFunctionById, hfind]
      show (if (e.id == k) = true then some e.functionPtr else none) = none
      rw [hbeq]
      rfl

/-- Witness for claim C6 on the two-function fixture, absent id 5. -/
theorem claim_C6_witness :
    (List.Pairwise (fun a b => a.id < b.id) funcClass.m_functions ∧
        (∀ e ∈ funcClass.m_functions, e.id ≠ 5)) ∧
      (funcClass.hasFunction 5 = false ∧
        funcClass.getFunctionById 5 = Except.error (CampError.FunctionNotFound 5 "F") ∧
        funcClass.tryGetFunctionById 5 = none) :=
  ⟨⟨by decide, by decide⟩,
    claim_C6_absent_function_id funcClass 5 (by decide) (by decide)⟩

/-- Claim C7: every positional accessor — `base`, `getFunctionByIndex`,
and `getPropertyByIndex` — succeeds exactly when the index is below the
corresponding count and fails with `OutOfRange` exactly when the index
reaches it. -/
theorem claim_C7_index_bounds (c : Class) (i : Nat) :
    ((∃ b, c.base i = Except.ok b) ↔ i < c.baseCount) ∧
    (c.base i = Except.error (CampError.OutOfRange i c.baseCount) ↔ c.baseCount ≤ i) ∧
    ((∃ f, c.getFunctionByIndex i = Except.ok f) ↔ i < c.functionCount) ∧
    (c.getFunctionByIndex i = Except.error (CampError.OutOfRange i c.functionCount) ↔
      c.functionCount ≤ i) ∧
    ((∃ p, c.getPropertyByIndex i = Except.ok p) ↔ i < c.propertyCount) ∧
    (c.getPropertyByIndex i = Except.error (CampError.OutOfRange i c.propertyCount) ↔
      c.propertyCount ≤ i) := by
  refine ⟨?_, ?_, ?_, ?_, ?_, ?_⟩
  · by_cases h : c.m_bases.length ≤ i
    · simp only [Class.base, Class.baseCount, dif_pos h]
      simp
      omega
    · simp only [Class.base, Class.baseCount, dif_neg h]
      simp
      omega
  · by_cases h : c.m_bases.length ≤ i
    · simp only [Class.base, Class.baseCount, dif_pos h]
      simp [h]
    · simp only [Class.base, Class.baseCount, dif_neg h]
      simp [h]
  · by_cases h : c.m_functions.length ≤ i
    · simp only [Class.getFunctionByIndex, Class.functionCount, dif_pos h]
      simp
      omega
    · simp only [Class.getFunctionByIndex, Class.functionCount, dif_neg h]
      simp
      omega
  · by_cases h : c.m_functions.length ≤ i
    · simp only [Class.getFunctionByIndex, Class.functionCount, dif_pos h]
      simp [h]
    · simp only [Class.getFunctionByIndex, Class.functionCount, dif_neg h]
      simp [h]
  · by_cases h : c.m_propertiesById.length ≤ i
    · simp only [Class.getPropertyByIndex, Class.propertyCount, if_pos h]
      simp
      omega
    · simp only [Class.getPropertyByIndex, Class.propertyCount, if_neg h]
      simp
      omega
  · by_cases h : c.m_propertiesById.length ≤ i
    · simp only [Class.getPropertyByIndex, Class.propertyCount, if_pos h]
      simp [h]
    · simp only [Class.getPropertyByIndex, Class.propertyCount, if_neg h]
      simp [h]

/-- Claim C8: `construct` tests constructors strictly in registration
order and delegates creation to the first whose `matches` accepts the
arguments; when none matches (including zero registered constructors) it
returns the `UserObject::nothing` sentinel instead of an error. -/
theorem claim_C8_construct_first_match (c : Class) (args : Args) :
    c.construct args =
      match c.m_constructors.find? (fun k => k.matchesFn args) with
      | some k => k.create args
      | none => UserObject.nothing := by
  rw [Class.construct]
  induction c.m_constructors with
  | nil => rfl
  | cons k rest ih =>
    rw [constructLoop]
    cases hm : k.matchesFn args with
    | true =>
      rw [List.find?_cons]
      simp [hm]
    | false =>
      rw [List.find?_cons]
      simp [hm]
      exact ih

/-- Fixture with consistent property views: one property, id 5,
descriptor 50, present in both views. -/
def propClass : Class :=
  { m_id := 200, m_name := "P",
    m_propertiesById := [⟨5, 50⟩], m_propertiesByIndex := [⟨5, 50⟩] }

/-- Fixture violating the two-view invariant: the id-sorted view has one
entry but the index-ordered view is empty. -/
def mismatchClass : Class :=
  { m_id := 201, m_name := "Q",
    m_propertiesById := [⟨5, 50⟩], m_propertiesByIndex := [] }

/-- Claim C9: `getPropertyByIndex` validates the index against the
id-sorted view but reads from the index-ordered view; under the invariant
that both views have the same length every validated access reads a real
descriptor, and without it a validated in-bounds access reads out of
bounds (the fixture `mismatchClass`). -/
theorem claim_C9_property_views (c : Class) (i : Nat)
    (hinv : c.m_propertiesByIndex.length = c.m_propertiesById.length)
    (hi : i < c.propertyCount) :
    (∃ p, c.getPropertyByIndex i = Except.ok (some p)) ∧
    mismatchClass.getPropertyByIndex 0 = Except.ok none := by
  constructor
  · have hlt : i < c.m_propertiesByIndex.length := by
      rw [hinv]
      exact hi
    obtain ⟨e, he⟩ : ∃ e, c.m_propertiesByIndex.get? i = some e :=
      ⟨_, List.get?_eq_get hlt⟩
    refine ⟨e.propertyPtr, ?_⟩
    have hi2 : ¬ c.m_propertiesById.length ≤ i := Nat.not_le.mpr hi
    rw [Class.getPropertyByIndex, if_neg hi2, he]
    rfl
  · rfl

/-- Witness for claim C9 on the consistent one-property fixture. -/
theorem claim_C9_witness :
    (propClass.m_propertiesByIndex.length = propClass.m_propertiesById.length ∧
        (0 : Nat) < propClass.propertyCount) ∧
      ((∃ p, propClass.getPropertyByIndex 0 = Except.ok (some p)) ∧
        mismatchClass.getPropertyByIndex 0 = Except.ok none) :=
  ⟨⟨rfl, by decide⟩, claim_C9_property_views propClass 0 rfl (by decide)⟩

/-- Witness for claim C10 on the twin fixture. -/
theorem claim_C10_witness :
    (0 : Nat) ≠ 1 ∧
      (Class.eqOp twinA twinB = true ∧ Class.baseOffset twinReg 0 1 = -1) :=
  ⟨by decide, claim_C10_identity_not_id twinReg 0 1 twinA twinB (by decide) rfl rfl rfl rfl⟩

end camp
